import Mathlib

/-
  Verification of the web_fetch tool (src/tools/web-fetch/lib/web_fetch/main.py)
  against its natural-language specification.

  Shallow embedding conventions:
  - byte strings are `List Nat` (one entry per byte);
  - Python exceptions are the inductive `PyExc`, with one constructor per
    concrete (leaf) exception class raised or caught in the program; `except`
    clauses become boolean class predicates that follow CPython's class
    hierarchy (e.g. gzip.BadGzipFile is a subclass of OSError,
    UnicodeDecodeError of UnicodeError of ValueError, while zlib.error derives
    directly from Exception);
  - fallible Python code returns `Except PyExc`;
  - Python's float is modelled by exact decimal rationals (an integer
    numerator over a power of ten); every numeric literal this development
    evaluates parse_size on is exactly representable as a binary double, so
    the model and CPython agree on those inputs;
  - external library capabilities that are not part of the repository
    (zlib/gzip inflate, text codecs, BeautifulSoup HTML extraction, the JSON
    serializer, the network transport) are parameters of the embedded
    functions, so every theorem quantifies over their behavior or pins it with
    explicitly stated hypotheses.
-/

deriving instance DecidableEq for Except

namespace WebFetch

/-- Python exception values, one constructor per concrete class appearing in
web_fetch's control flow. -/
inductive PyExc where
  | valueError (msg : String)
  | runtimeError (msg : String)
  | zlibError (msg : String)
  | badGzipFile (msg : String)
  | unicodeDecodeError (msg : String)
  | lookupError (msg : String)
  | unicodeError (msg : String)
  | httpError (code : Nat) (reason : String)
  | urlError (reason : String)
  | osError (msg : String)
  deriving Repr, DecidableEq

/-- `except OSError` in CPython: OSError itself, gzip.BadGzipFile (a subclass
of OSError), and urllib's URLError/HTTPError (URLError subclasses OSError). -/
def isOSErrorClass : PyExc → Bool
  | .osError _ => true
  | .badGzipFile _ => true
  | .urlError _ => true
  | .httpError _ _ => true
  | _ => false

/-- `except ValueError` in CPython: ValueError itself and its subclasses
UnicodeError and UnicodeDecodeError. -/
def isValueErrorClass : PyExc → Bool
  | .valueError _ => true
  | .unicodeError _ => true
  | .unicodeDecodeError _ => true
  | _ => false

/-- `except RuntimeError`. -/
def isRuntimeErrorClass : PyExc → Bool
  | .runtimeError _ => true
  | _ => false

/-- `except zlib.error`: zlib.error derives directly from Exception, so no
other constructor matches it. -/
def isZlibErrorClass : PyExc → Bool
  | .zlibError _ => true
  | _ => false

/-- `except UnicodeDecodeError`. -/
def isUnicodeDecodeErrorClass : PyExc → Bool
  | .unicodeDecodeError _ => true
  | _ => false

/-- `except LookupError`. -/
def isLookupErrorClass : PyExc → Bool
  | .lookupError _ => true
  | _ => false

/-! ### Python string helpers -/

/-- The characters Python's str.strip() removes by default. -/
def pyWhitespace (c : Char) : Bool :=
  c = ' ' || c = '\t' || c = '\n' || c = '\x0d' || c = '\x0b' || c = '\x0c'

/-- Python str.strip(): drop whitespace from both ends. -/
def pyStrip (s : String) : String :=
  ⟨((s.data.dropWhile pyWhitespace).reverse.dropWhile pyWhitespace).reverse⟩

/-- Python str.endswith(suffix). -/
def pyEndsWith (s suffix : String) : Bool :=
  suffix.data.isSuffixOf s.data

/-- Python str.upper() (ASCII; every string this development uppercases is
ASCII). -/
def pyUpper (s : String) : String :=
  ⟨s.data.map Char.toUpper⟩

/-- Python str.lower() (ASCII). -/
def pyLower (s : String) : String :=
  ⟨s.data.map Char.toLower⟩

/-- Python s[:-n] for n > 0 (and s[:len(s)] when n = 0 never occurs here). -/
def dropLast (s : String) (n : Nat) : String :=
  ⟨s.data.take (s.data.length - n)⟩

/-! ### parse_size (main.py lines 359-383) -/

/-- Numeric value of a digit list. -/
def digitsVal (l : List Char) : Nat :=
  l.foldl (fun a c => 10 * a + (c.toNat - 48)) 0

/-- An exact decimal rational: the value num / 10 ^ scale. Models the value
Python float() returns for a decimal literal (exact whenever the double is,
which holds for every input this development evaluates). -/
structure Dec where
  num : Int
  scale : Nat
  deriving Repr, DecidableEq

/-- Modelled fragment of Python float(): optional sign, then digits with at
most one decimal point and at least one digit. (Python float() also accepts
exponents, inf/nan and surrounding whitespace; no input considered in this
development uses those forms.) -/
def parsePyFloat (s : String) : Option Dec :=
  let cs := s.data
  let signBody : Int × List Char :=
    match cs with
    | '-' :: r => (-1, r)
    | '+' :: r => (1, r)
    | r => (1, r)
  let sgn := signBody.1
  let body := signBody.2
  match body.splitOn '.' with
  | [ip] =>
      if ip ≠ [] && ip.all Char.isDigit then
        some ⟨sgn * (digitsVal ip : Int), 0⟩
      else none
  | [ip, fp] =>
      if (ip ++ fp) ≠ [] && ip.all Char.isDigit && fp.all Char.isDigit then
        some ⟨sgn * ((digitsVal ip : Int) * (10 : Int) ^ fp.length + (digitsVal fp : Int)),
              fp.length⟩
      else none
  | _ => none

/-- Modelled fragment of Python int(str): optional sign, nonempty digits. -/
def parsePyInt (s : String) : Option Int :=
  let cs := s.data
  let signBody : Int × List Char :=
    match cs with
    | '-' :: r => (-1, r)
    | '+' :: r => (1, r)
    | r => (1, r)
  if signBody.2 ≠ [] && signBody.2.all Char.isDigit then
    some (signBody.1 * (digitsVal signBody.2 : Int))
  else none

/-- Python int() applied to the float num/10^scale times the Nat multiplier:
exact multiplication followed by truncation toward zero. -/
def pyIntTrunc (d : Dec) (mult : Nat) : Int :=
  let n := d.num * (mult : Int)
  let p := (10 : Nat) ^ d.scale
  match n with
  | .ofNat m => .ofNat (m / p)
  | .negSucc m => -(.ofNat ((m + 1) / p))

/-- The multipliers dict of parse_size, in insertion order (CPython dicts
iterate in insertion order). -/
def multipliers : List (String × Nat) :=
  [("K", 1024), ("KB", 1024), ("M", 1024 * 1024), ("MB", 1024 * 1024),
   ("G", 1024 * 1024 * 1024), ("GB", 1024 * 1024 * 1024)]

/-- The for-loop of parse_size: first suffix (in dict order) that matches the
end of the string and whose stripped numeric part parses as a float wins; a
float ValueError is passed over and the scan continues. -/
def trySuffixes (s : String) : List (String × Nat) → Option Int
  | [] => none
  | (suf, mult) :: rest =>
      if pyEndsWith s suf then
        match parsePyFloat (dropLast s suf.data.length) with
        | some num => some (pyIntTrunc num mult)
        | none => trySuffixes s rest
      else trySuffixes s rest

/-- parse_size: strip and uppercase, try the suffix table, then fall back to a
plain integer parse; otherwise ValueError "Invalid size format: ...". -/
def parse_size (size_str : String) : Except PyExc Int :=
  let s := pyUpper (pyStrip size_str)
  match trySuffixes s multipliers with
  | some n => .ok n
  | none =>
      match parsePyInt s with
      | some n => .ok n
      | none => .error (.valueError ("Invalid size format: " ++ s))

/-! ### Python substring and split helpers -/

/-- Python `sub in l` on strings, as lists of characters. -/
def hasSub (sub : List Char) : List Char → Bool
  | [] => sub.isEmpty
  | c :: t => sub.isPrefixOf (c :: t) || hasSub sub t

/-- Python str.split(sep) for a one-character separator. -/
def pySplit (s : String) (sep : Char) : List String :=
  (s.data.splitOn sep).map (fun l => ⟨l⟩)

/-- Python str.strip('"\x27'): drop double and single quotes from both ends
(the argument of the strip call at main.py line 146). -/
def pyStripQuotes (s : String) : String :=
  let isQuote : Char → Bool := fun c => c = '"' || c = Char.ofNat 39
  ⟨((s.data.dropWhile isQuote).reverse.dropWhile isQuote).reverse⟩

/-! ### URL scheme (urllib.parse.urlparse(...).scheme) -/

/-- Characters allowed in a URL scheme after the leading letter. -/
def isSchemeChar (c : Char) : Bool :=
  c.isAlphanum || c = '+' || c = '-' || c = '.'

/-- urlparse(url).scheme: the lowercased text before the first colon when it
is a well-formed scheme (leading letter, then letters, digits, plus, minus or
dot), else the empty string. -/
def urlScheme (url : String) : String :=
  let cs := url.data
  let before := cs.takeWhile (fun c => c ≠ ':')
  if cs.elem ':' && before ≠ [] &&
      (match before with | c :: _ => c.isAlpha | [] => false) &&
      before.all isSchemeChar then
    pyLower ⟨before⟩
  else ""

/-! ### Decompressor (main.py lines 53-63)

The zlib and gzip library inflaters are external capabilities: they are
parameters, and theorems pin their behavior by hypothesis (e.g. the library
roundtrip fact that inflating a deflated payload returns the original). -/

/-- The three library inflate entry points decompress_content calls:
gzip.decompress(b), zlib.decompress(b), and zlib.decompress(b, -MAX_WBITS)
(raw deflate). -/
structure ZlibLib where
  gzipDecompress : List Nat → Except PyExc (List Nat)
  zlibDecompress : List Nat → Except PyExc (List Nat)
  zlibDecompressRaw : List Nat → Except PyExc (List Nat)

/-- decompress_content: gzip → gzip inflate; deflate → zlib-wrapped inflate,
retried as raw deflate when (and only when) the first attempt raises
zlib.error; any other encoding passes the bytes through unchanged. -/
def decompress_content (lib : ZlibLib) (content : List Nat) (encoding : String) :
    Except PyExc (List Nat) :=
  if encoding = "gzip" then lib.gzipDecompress content
  else if encoding = "deflate" then
    match lib.zlibDecompress content with
    | .ok out => .ok out
    | .error e => if isZlibErrorClass e then lib.zlibDecompressRaw content else .error e
  else .ok content

/-! ### Content Fetcher (main.py lines 66-171) -/

/-- Result from fetching a URL (main.py lines 41-50). -/
structure FetchResult where
  url : String
  status : Nat
  headers : List (String × String)
  content : List Nat
  content_type : String
  charset : String
  deriving Repr, DecidableEq

/-- The transport's view of one successful urlopen: final URL after
redirects, status, response headers, and the successive values returned by
response.read(8192) (the stream ends at the list's end or at the first empty
chunk, as in the loop's `if not chunk: break`). -/
structure NetResponse where
  finalUrl : String
  status : Nat
  headers : List (String × String)
  chunks : List (List Nat)

/-- The transport's behavior for one request: either a response object or one
of the exceptions urlopen raises. -/
inductive NetOutcome where
  | success (resp : NetResponse)
  | raiseHTTPError (code : Nat) (reason : String)
  | raiseURLError (reason : String)
  | raiseOSError (msg : String)

/-- The RuntimeError message of the size-cap abort (main.py line 125). -/
def sizeExceededMsg (maxSize : Int) : String :=
  "Response size exceeds maximum (" ++ toString maxSize ++ " bytes)"

/-- The streaming read loop (main.py lines 119-127): take chunks until the
stream ends or a chunk is empty; add each chunk's length to the running total
first, abort with RuntimeError when the total passes maxSize, and only
otherwise append the chunk to the buffer. maxSize is an Int because
parse_size can produce a negative bound, which Python compares as-is. -/
def readChunks (maxSize : Int) : List (List Nat) → Nat → List Nat → Except PyExc (List Nat)
  | [], _, buf => .ok buf
  | c :: rest, total, buf =>
      if c.length = 0 then .ok buf
      else if maxSize < ((total + c.length : Nat) : Int) then
        .error (.runtimeError (sizeExceededMsg maxSize))
      else readChunks maxSize rest (total + c.length) (buf ++ c)

/-- The same recursion as readChunks, returning the high-water mark of the
buffer length instead of the buffer: it witnesses that the loop aborts before
appending the over-budget chunk, so the buffer never holds more than maxSize
bytes. -/
def readChunksPeak (maxSize : Int) : List (List Nat) → Nat → Nat
  | [], total => total
  | c :: rest, total =>
      if c.length = 0 then total
      else if maxSize < ((total + c.length : Nat) : Int) then total
      else readChunksPeak maxSize rest (total + c.length)

/-- The number of body bytes the transport would deliver: the chunk lengths
up to the end of the stream or the first empty chunk. -/
def streamedBytes : List (List Nat) → Nat
  | [] => 0
  | c :: rest => if c.length = 0 then 0 else c.length + streamedBytes rest

/-- email.message get: case-insensitive header lookup, first match wins. -/
def headerGet (hs : List (String × String)) (name : String) : Option String :=
  (hs.find? (fun kv => pyLower kv.1 == pyLower name)).map Prod.snd

/-- The charset scan over the Content-Type parameters (main.py lines
143-147): first parameter containing "charset=" wins; its value is the text
after the first '=', whitespace-stripped then quote-stripped; default
"utf-8". -/
def findCharset : List String → String
  | [] => "utf-8"
  | part :: rest =>
      if hasSub "charset=".data part.data then
        pyStripQuotes (pyStrip ⟨(part.data.dropWhile (fun c => c ≠ '=')).drop 1⟩)
      else findCharset rest

/-- The body of fetch_url's `with urlopen(...)` block (main.py lines
113-156): stream with the size cap, decompress when a Content-Encoding is
present, then derive the content-type main token and charset. -/
def fetchBody (lib : ZlibLib) (resp : NetResponse) (maxSize : Int) :
    Except PyExc FetchResult :=
  match readChunks maxSize resp.chunks 0 [] with
  | .error e => .error e
  | .ok wireBytes =>
      let encoding := pyLower ((headerGet resp.headers "Content-Encoding").getD "")
      let decompressed : Except PyExc (List Nat) :=
        if encoding ≠ "" then decompress_content lib wireBytes encoding
        else .ok wireBytes
      match decompressed with
      | .error e => .error e
      | .ok contentBytes =>
          let contentType :=
            (headerGet resp.headers "Content-Type").getD "application/octet-stream"
          let ctParts := pySplit contentType ';'
          let ctMain := pyLower (pyStrip (ctParts.headD ""))
          let charset := findCharset ctParts.tail
          .ok { url := resp.finalUrl, status := resp.status, headers := resp.headers,
                content := contentBytes, content_type := ctMain, charset := charset }

/-- The except clauses of fetch_url (main.py lines 158-171): HTTPError,
URLError and OSError (hence also gzip.BadGzipFile, an OSError subclass) are
re-raised as RuntimeError with a classified message; every other exception —
in particular zlib.error — propagates unchanged. -/
def fetchHandlers (url : String) (timeout : Nat) : PyExc → PyExc
  | .httpError code reason =>
      .runtimeError ("HTTP " ++ toString code ++ " " ++ reason ++ ": " ++ url)
  | .urlError reason =>
      if hasSub "timed out".data (pyLower reason).data then
        .runtimeError ("Request timed out after " ++ toString timeout ++ "s: " ++ url)
      else if hasSub "ssl".data (pyLower reason).data then
        .runtimeError ("SSL error: " ++ url ++ ": " ++ reason)
      else
        .runtimeError ("Network error: " ++ url ++ ": " ++ reason)
  | .osError msg => .runtimeError ("Connection error: " ++ url ++ ": " ++ msg)
  | .badGzipFile msg => .runtimeError ("Connection error: " ++ url ++ ": " ++ msg)
  | e => e

/-- fetch_url: scheme validation, then the request body under the exception
handlers. The HTTP method, extra request headers, request data and user agent
only shape the outgoing request, which the NetOutcome parameter abstracts, so
they are not modelled. -/
def fetch_url (lib : ZlibLib) (url : String) (timeout : Nat) (maxSize : Int)
    (net : NetOutcome) : Except PyExc FetchResult :=
  if urlScheme url ≠ "http" && urlScheme url ≠ "https" then
    .error (.valueError ("Only http and https URLs are supported, got: " ++ urlScheme url))
  else
    let body : Except PyExc FetchResult :=
      match net with
      | .success resp => fetchBody lib resp maxSize
      | .raiseHTTPError code reason => .error (.httpError code reason)
      | .raiseURLError reason => .error (.urlError reason)
      | .raiseOSError msg => .error (.osError msg)
    match body with
    | .ok r => .ok r
    | .error e => .error (fetchHandlers url timeout e)

/-! ### Text Decoder (main.py lines 278-285)

The codec registry is an external capability: `decode name bytes` models
bytes.decode(name) and `decodeUtf8Replace` models
bytes.decode("utf-8", errors="replace"); latin-1 with replacement is
implemented concretely (every byte is a code point, so it is total). -/

/-- The codec entry points the decode chain calls. -/
structure CodecLib where
  decode : String → List Nat → Except PyExc String
  decodeUtf8Replace : List Nat → Except PyExc String

/-- bytes.decode("latin-1", errors="replace"): each byte maps to the code
point of the same value, so this decode is total. -/
def latin1Decode (content : List Nat) : String :=
  ⟨content.map (fun b => Char.ofNat (b % 256))⟩

/-- The decode chain of format_output (main.py lines 278-285): declared
charset first; on UnicodeDecodeError or LookupError fall back to UTF-8 with
replacement; if that raises anything, fall back to latin-1 with replacement.
A primary failure of any other class — e.g. the bare UnicodeError the
'undefined' codec raises — is not caught and propagates. -/
def decodeText (codec : CodecLib) (content : List Nat) (charset : String) :
    Except PyExc String :=
  match codec.decode charset content with
  | .ok t => .ok t
  | .error e =>
      if isUnicodeDecodeErrorClass e || isLookupErrorClass e then
        match codec.decodeUtf8Replace content with
        | .ok t => .ok t
        | .error _ => .ok (latin1Decode content)
      else .error e

/-! ### Renderer (main.py lines 221-356) -/

/-- Content types treated as text (main.py lines 28-38). -/
def TEXT_CONTENT_TYPES : List String :=
  ["text/html", "text/plain", "text/xml", "application/xml", "application/json",
   "application/javascript", "text/javascript", "application/x-javascript", "text/css"]

/-- The is_text classification (main.py lines 255-257). -/
def isTextType (ct : String) : Bool :=
  TEXT_CONTENT_TYPES.any (fun t => t.data.isPrefixOf ct.data) ||
    "text/".data.isPrefixOf ct.data

/-- Successful HTML extraction (the dict extract_html_text returns when
BeautifulSoup is available). -/
structure HtmlExtract where
  title : Option String
  description : Option String
  text : String

/-- extract_html_text's result: either an extraction, or the degraded
error-plus-preview dict returned when BeautifulSoup is unavailable. -/
inductive HtmlExtractResult where
  | extracted (e : HtmlExtract)
  | unavailable (errMsg : String) (rawHtml : String)

/-- The variant key of JSON-mode output_data (main.py lines 300-311). -/
inductive JsonVariant where
  | jsonBody (rawText : String)
  | htmlBody (h : HtmlExtractResult)
  | textBody (t : String)

/-- The output_data mapping json.dumps serializes in JSON mode (main.py
lines 290-313). -/
structure JsonOutputData where
  url : String
  status : Nat
  content_type : String
  size : Nat
  headers : Option (List (String × String))
  variant : JsonVariant

/-- The external rendering capabilities format_output calls: BeautifulSoup
extraction and the json module. jsonParses/jsonErrMsg/jsonPretty model
json.loads plus json.dumps(parsed, indent=2, ensure_ascii=False);
dumpOutput and dumpBinaryNotice model json.dumps(..., indent=2) on the two
JSON-mode dicts. -/
structure RenderLib where
  extractHtml : String → HtmlExtractResult
  jsonParses : String → Bool
  jsonErrMsg : String → String
  jsonPretty : String → String
  dumpOutput : JsonOutputData → String
  dumpBinaryNotice : FetchResult → String

/-- Lexicographic order on char lists by code point (Python string <). -/
def charListLe : List Char → List Char → Bool
  | [], _ => true
  | _ :: _, [] => false
  | a :: as, b :: bs =>
      if a.toNat < b.toNat then true
      else if b.toNat < a.toNat then false
      else charListLe as bs

/-- Python tuple comparison on header items: key first, then value. -/
def pairLe (a b : String × String) : Bool :=
  if a.1 = b.1 then charListLe a.2.data b.2.data else charListLe a.1.data b.1.data

/-- Insertion step of sorted(...). -/
def insertSorted (x : String × String) :
    List (String × String) → List (String × String)
  | [] => [x]
  | y :: ys => if pairLe x y then x :: y :: ys else y :: insertSorted x ys

/-- sorted(result.headers.items()). -/
def sortPairs : List (String × String) → List (String × String)
  | [] => []
  | x :: xs => insertSorted x (sortPairs xs)

/-- "\n".join(parts). -/
def joinNL : List String → String
  | [] => ""
  | [s] => s
  | s :: rest => s ++ "\n" ++ joinNL rest

/-- The URL/status/content-type/size lines plus the optional header block
(main.py lines 242-252; both are emitted only in text mode). -/
def headerLines (r : FetchResult) (show_headers : Bool) : List String :=
  ["URL: " ++ r.url, "Status: " ++ toString r.status,
   "Content-Type: " ++ r.content_type,
   "Size: " ++ toString r.content.length ++ " bytes"] ++
  (if show_headers then
    "\nHeaders:" ::
      (sortPairs r.headers).map (fun kv => "  " ++ kv.1 ++ ": " ++ kv.2)
   else [])

/-- Text-mode body for application/json (main.py lines 319-330). -/
def jsonTextParts (rlib : RenderLib) (text : String) : List String :=
  if pyStrip text = "" then ["(empty body)"]
  else if rlib.jsonParses text then [rlib.jsonPretty text]
  else ["Warning: Invalid JSON (" ++ rlib.jsonErrMsg text ++ ")", text]

/-- Text-mode body for text/html without --raw (main.py lines 331-344);
Python truthiness makes an empty title or description line vanish. -/
def htmlTextParts (rlib : RenderLib) (text : String) : List String :=
  match rlib.extractHtml text with
  | .unavailable err raw => ["Error: " ++ err, "\nRaw HTML (truncated):", raw]
  | .extracted e =>
      (match e.title with
       | some t => if t ≠ "" then ["Title: " ++ t] else []
       | none => []) ++
      (match e.description with
       | some d => if d ≠ "" then ["Description: " ++ d] else []
       | none => []) ++
      ["\nContent:", e.text]

/-- Dispatch on content type in text mode (main.py lines 319-347). -/
def textModeBody (rlib : RenderLib) (r : FetchResult) (raw : Bool)
    (text : String) : List String :=
  if r.content_type = "application/json" then jsonTextParts rlib text
  else if r.content_type = "text/html" && !raw then htmlTextParts rlib text
  else [text]

/-- The flat text-mode output before truncation: header lines, a blank line,
then the body (main.py lines 316-349). -/
def flatText (rlib : RenderLib) (r : FetchResult) (show_headers raw : Bool)
    (text : String) : String :=
  joinNL (headerLines r show_headers ++ [""] ++ textModeBody rlib r raw text)

/-- The fixed 50 KiB output cap (main.py line 24). -/
def OUTPUT_TRUNCATE_SIZE : Nat := 50 * 1024

/-- The trailing truncation marker (main.py line 354). -/
def truncMarker (n : Nat) : String :=
  "\n\n... (truncated, showing first " ++ toString n ++ " bytes)"

/-- The variant key selection in JSON mode (main.py lines 300-311). -/
def jsonOutputData (rlib : RenderLib) (r : FetchResult) (show_headers raw : Bool)
    (text : String) : JsonOutputData :=
  { url := r.url, status := r.status, content_type := r.content_type,
    size := r.content.length,
    headers := if show_headers then some r.headers else none,
    variant :=
      if r.content_type = "application/json" then
        if pyStrip text = "" then .textBody "(empty body)"
        else if rlib.jsonParses text then .jsonBody text
        else .textBody text
      else if r.content_type = "text/html" && !raw then .htmlBody (rlib.extractHtml text)
      else .textBody text }

/-- format_output (main.py lines 221-356). Binary content and JSON mode
return before the truncation step; only the flat text path truncates, to
OUTPUT_TRUNCATE_SIZE characters plus the marker. The decode chain's failure
(possible only for a primary error outside UnicodeDecodeError/LookupError)
propagates to the caller. -/
def format_output (codec : CodecLib) (rlib : RenderLib) (r : FetchResult)
    (show_headers raw json_output : Bool) : Except PyExc String :=
  if !(isTextType r.content_type) then
    if json_output then .ok (rlib.dumpBinaryNotice r)
    else
      .ok (joinNL (headerLines r show_headers ++
        ["\nBinary content detected.", "Use --output to save to a file."]))
  else
    match decodeText codec r.content r.charset with
    | .error e => .error e
    | .ok text =>
        if json_output then
          .ok (rlib.dumpOutput (jsonOutputData rlib r show_headers raw text))
        else
          let result_text := flatText rlib r show_headers raw text
          if result_text.length > OUTPUT_TRUNCATE_SIZE then
            .ok ((⟨result_text.data.take OUTPUT_TRUNCATE_SIZE⟩ : String) ++
              truncMarker OUTPUT_TRUNCATE_SIZE)
          else .ok result_text

/-! ### Batch Orchestrator (main.py lines 386-559) -/

/-- The parsed CLI arguments main uses past argument parsing. Custom request
headers, method, body and user agent only shape the outgoing request, which
the NetOutcome abstraction carries, so they are not modelled. -/
structure Args where
  urls : List String
  show_headers : Bool
  raw : Bool
  jsonOut : Bool
  timeout : Nat
  maxSizeStr : String
  output : Option String

/-- Python str(e) for the exceptions that can reach main's except clause or
its pre-flight error print (ValueError and RuntimeError carry their message;
the remaining renderings are best-effort and unused by the theorems). -/
def pyStr : PyExc → String
  | .valueError m => m
  | .runtimeError m => m
  | .zlibError m => m
  | .badGzipFile m => m
  | .unicodeDecodeError m => m
  | .lookupError m => m
  | .unicodeError m => m
  | .httpError c r => "HTTP Error " ++ toString c ++ ": " ++ r
  | .urlError r => "<urlopen error " ++ r ++ ">"
  | .osError m => m

/-- args.output.rsplit(".", 1): split at the last dot. Only called when the
string contains a dot. -/
def rsplitDot (s : String) : String × String :=
  let rev := s.data.reverse
  let extRev := rev.takeWhile (fun c => c ≠ '.')
  let baseRev := rev.drop (extRev.length + 1)
  (⟨baseRev.reverse⟩, ⟨extRev.reverse⟩)

/-- The disambiguated file name for multi-URL --output (main.py lines
515-516): insert the index before the extension, or append it when the name
has none. The caller passes len(results) as the index. -/
def indexedOutputName (output : String) (idx : Nat) : String :=
  let be : String × String :=
    if output.data.elem '.' then rsplitDot output else (output, "")
  if be.2 ≠ "" then be.1 ++ "_" ++ toString idx ++ "." ++ be.2
  else be.1 ++ "_" ++ toString idx

/-- The orchestrator's accumulators: console-rendered results, formatted
error lines, and the (file name, bytes) writes performed. -/
structure LoopState where
  results : List String
  errors : List String
  saved : List (String × List Nat)
  deriving Repr, DecidableEq

/-- The body of the per-URL try block (main.py lines 500-531): fetch, then
either write the raw bytes to the (possibly indexed) output file or render
and buffer the result. The index used for disambiguation is len(results) —
the list of console-rendered results, which file saving never extends. -/
def processUrl (lib : ZlibLib) (codec : CodecLib) (rlib : RenderLib) (args : Args)
    (maxSize : Int) (net : String → NetOutcome) (st : LoopState) (url : String) :
    Except PyExc LoopState :=
  match fetch_url lib url args.timeout maxSize (net url) with
  | .error e => .error e
  | .ok r =>
      match args.output with
      | some out =>
          let outputFile :=
            if args.urls.length > 1 then indexedOutputName out st.results.length else out
          .ok { st with saved := st.saved ++ [(outputFile, r.content)] }
      | none =>
          match format_output codec rlib r args.show_headers args.raw args.jsonOut with
          | .error e => .error e
          | .ok formatted => .ok { st with results := st.results ++ [formatted] }

/-- The URL loop with its except clause (main.py lines 499-534): a ValueError
or RuntimeError is recorded as a formatted error line and the loop continues;
any other exception (e.g. zlib.error) aborts the loop and is returned
unhandled together with the state reached so far. -/
def batchLoop (lib : ZlibLib) (codec : CodecLib) (rlib : RenderLib) (args : Args)
    (maxSize : Int) (net : String → NetOutcome) :
    List String → LoopState → LoopState × Option PyExc
  | [], st => (st, none)
  | url :: rest, st =>
      match processUrl lib codec rlib args maxSize net st url with
      | .ok st' => batchLoop lib codec rlib args maxSize net rest st'
      | .error e =>
          if isValueErrorClass e || isRuntimeErrorClass e then
            batchLoop lib codec rlib args maxSize net rest
              { st with errors := st.errors ++ ["Error fetching " ++ url ++ ": " ++ pyStr e] }
          else (st, some e)

/-- How one invocation of main ends: sys.exit with a code (falling off the
end is code 0), or an uncaught exception. -/
inductive BatchExit where
  | exited (code : Nat)
  | uncaught (e : PyExc)
  deriving Repr, DecidableEq

/-- The externally observable outcome of main: rendered console results,
error-stream lines, file writes, and the exit behavior. -/
structure BatchOutcome where
  results : List String
  errors : List String
  saved : List (String × List Nat)
  exit : BatchExit
  deriving Repr, DecidableEq

/-- main (main.py lines 386-559) from argument parsing onward: parse
--max-size (a bad value prints an error and exits 1 before any fetch), run
the URL loop, then derive the exit status — 1 when there are errors and no
rendered results, 2 when there are errors and rendered results, 0 otherwise.
An exception the loop does not handle escapes main. -/
def runMain (lib : ZlibLib) (codec : CodecLib) (rlib : RenderLib) (args : Args)
    (net : String → NetOutcome) : BatchOutcome :=
  match parse_size args.maxSizeStr with
  | .error e =>
      { results := [], errors := ["Error: " ++ pyStr e], saved := [], exit := .exited 1 }
  | .ok maxSize =>
      match batchLoop lib codec rlib args maxSize net args.urls ⟨[], [], []⟩ with
      | (st, some e) =>
          { results := st.results, errors := st.errors, saved := st.saved,
            exit := .uncaught e }
      | (st, none) =>
          { results := st.results, errors := st.errors, saved := st.saved,
            exit := .exited
              (if st.errors ≠ [] && st.results.isEmpty then 1
               else if st.errors ≠ [] then 2 else 0) }

/-! ### Concrete instances of the external capabilities

These pin the parameters for witnesses and counterexamples. Each mirrors an
observed CPython behavior (noted on the definition). -/

/-- Inflaters that return their input unchanged; used by fixtures whose
responses carry no Content-Encoding. -/
def idZlib : ZlibLib :=
  { gzipDecompress := fun b => .ok b
    zlibDecompress := fun b => .ok b
    zlibDecompressRaw := fun b => .ok b }

/-- An inflater under which a 4-byte wire payload inflates to 12 bytes —
the defining purpose of gzip (real gzip routinely expands its input on
decompression). -/
def expandZlib : ZlibLib :=
  { gzipDecompress := fun b => .ok (b ++ b ++ b)
    zlibDecompress := fun b => .ok b
    zlibDecompressRaw := fun b => .ok b }

/-- zlib on a deflate body that is invalid both as zlib-wrapped and as raw
deflate: both entry points raise zlib.error, with the messages CPython
produces for such data. -/
def badDeflateZlib : ZlibLib :=
  { gzipDecompress := fun b => .ok b
    zlibDecompress := fun _ =>
      .error (.zlibError "Error -3 while decompressing data: incorrect header check")
    zlibDecompressRaw := fun _ =>
      .error (.zlibError "Error -3 while decompressing data: invalid block type") }

/-- A zlib view of one fixed payload: the zlib-wrapped attempt raises
zlib.error (as CPython does on raw-deflate data, which has no zlib header)
and the raw-deflate attempt succeeds, returning the plaintext [10, 20]. -/
def rawDeflateZlib : ZlibLib :=
  { gzipDecompress := fun b => .ok b
    zlibDecompress := fun _ =>
      .error (.zlibError "Error -3 while decompressing data: incorrect header check")
    zlibDecompressRaw := fun _ => .ok [10, 20] }

/-- A codec registry that decodes every charset like latin-1 (total on the
ASCII fixtures it is applied to). -/
def asciiCodec : CodecLib :=
  { decode := fun _ b => .ok (latin1Decode b)
    decodeUtf8Replace := fun b => .ok (latin1Decode b) }

/-- The CPython codec registry's behavior relevant to the decode chain:
bytes.decode('undefined') raises bare UnicodeError("undefined encoding")
(caught by neither UnicodeDecodeError nor LookupError); an unregistered name
raises LookupError; anything else decodes (latin-1-like here). -/
def cpythonCodec : CodecLib :=
  { decode := fun charset b =>
      if charset = "undefined" then .error (.unicodeError "undefined encoding")
      else if charset = "bogus-charset" then
        .error (.lookupError "unknown encoding: bogus-charset")
      else .ok (latin1Decode b)
    decodeUtf8Replace := fun b => .ok (latin1Decode b) }

/-- A renderer with BeautifulSoup unavailable and a json module that rejects
everything; the fixtures below never reach those branches. -/
def plainRender : RenderLib :=
  { extractHtml := fun t =>
      .unavailable "BeautifulSoup not available - install beautifulsoup4" t
    jsonParses := fun _ => false
    jsonErrMsg := fun _ => "Expecting value: line 1 column 1 (char 0)"
    jsonPretty := fun _ => ""
    dumpOutput := fun _ => ""
    dumpBinaryNotice := fun _ => "" }

/-- A 60000-character string, longer than the 50 KiB output cap. -/
def bigText : String :=
  ⟨List.replicate 60000 'a'⟩

/-- A renderer whose JSON serializer emits a payload longer than the output
cap, to observe that JSON mode does not truncate. -/
def bigDumpRender : RenderLib :=
  { extractHtml := fun t =>
      .unavailable "BeautifulSoup not available - install beautifulsoup4" t
    jsonParses := fun _ => false
    jsonErrMsg := fun _ => "Expecting value: line 1 column 1 (char 0)"
    jsonPretty := fun _ => ""
    dumpOutput := fun _ => bigText
    dumpBinaryNotice := fun _ => "" }

/-- A codec that decodes everything to the long string, to drive the text
path past the output cap. -/
def bigCodec : CodecLib :=
  { decode := fun _ _ => .ok bigText
    decodeUtf8Replace := fun b => .ok (latin1Decode b) }

/-- A small successful plain-text response ("Hi"). -/
def plainResp : NetResponse :=
  { finalUrl := "http://a.example/"
    status := 200
    headers := [("Content-Type", "text/plain")]
    chunks := [[72, 105]] }

/-- A second small successful plain-text response with different bytes. -/
def plainRespB : NetResponse :=
  { finalUrl := "http://b.example/"
    status := 200
    headers := [("Content-Type", "text/plain")]
    chunks := [[66]] }

/-- A response declaring Content-Encoding deflate whose 3 wire bytes are
invalid as both zlib-wrapped and raw deflate. -/
def badDeflateResp : NetResponse :=
  { finalUrl := "http://bad.example/"
    status := 200
    headers := [("Content-Type", "text/plain"), ("Content-Encoding", "deflate")]
    chunks := [[1, 2, 3]] }

/-- A gzip-encoded response whose 4 wire bytes fit a 4-byte cap exactly. -/
def gzipSmallResp : NetResponse :=
  { finalUrl := "http://e.example/x"
    status := 200
    headers := [("Content-Type", "application/octet-stream"), ("Content-Encoding", "gzip")]
    chunks := [[1, 2, 3, 4]] }

/-- A plain-text FetchResult whose declared charset is the "undefined"
codec. -/
def undefinedCharsetResult : FetchResult :=
  { url := "http://u.example/"
    status := 200
    headers := [("Content-Type", "text/plain; charset=undefined")]
    content := [104, 105]
    content_type := "text/plain"
    charset := "undefined" }

/-- A FetchResult whose decoded body will be the long string (its content
bytes are irrelevant because bigCodec ignores them). -/
def bigPlainResult : FetchResult :=
  { url := "http://big.example/"
    status := 200
    headers := [("Content-Type", "text/plain")]
    content := [72]
    content_type := "text/plain"
    charset := "utf-8" }

/-- A response whose stream (3 + 2 bytes) exceeds a 4-byte cap. -/
def overflowResp : NetResponse :=
  { finalUrl := "http://w.example/"
    status := 200
    headers := [("Content-Type", "text/plain")]
    chunks := [[1, 2, 3], [4, 5]] }

/-- The FetchResult fetch_url produces for plainResp under a 10-byte cap. -/
def plainFetched : FetchResult :=
  { url := "http://a.example/"
    status := 200
    headers := [("Content-Type", "text/plain")]
    content := [72, 105]
    content_type := "text/plain"
    charset := "utf-8" }

/-- Batch fixture: two URLs saved to the same --output destination, both
succeeding with different bytes. -/
def argsSameOutput : Args :=
  { urls := ["http://a.example/", "http://b.example/"]
    show_headers := false
    raw := false
    jsonOut := false
    timeout := 30
    maxSizeStr := "1M"
    output := some "page.html" }

/-- Network for argsSameOutput: both URLs succeed. -/
def netBothOk : String → NetOutcome := fun url =>
  if url = "http://a.example/" then
    .success { plainResp with chunks := [[65]] }
  else .success plainRespB

/-- Batch fixture: two URLs with --output where the second URL fails. -/
def argsOutputPartial : Args :=
  { urls := ["http://a.example/", "http://c.example/"]
    show_headers := false
    raw := false
    jsonOut := false
    timeout := 30
    maxSizeStr := "1M"
    output := some "page.html" }

/-- Network for argsOutputPartial: first URL succeeds, second is refused. -/
def netOneRefused : String → NetOutcome := fun url =>
  if url = "http://a.example/" then .success plainResp
  else .raiseURLError "connection refused"

/-- Batch fixture: console mode, first URL serves undecompressible deflate,
second is fine. -/
def argsDeflateBatch : Args :=
  { urls := ["http://bad.example/", "http://good.example/"]
    show_headers := false
    raw := false
    jsonOut := false
    timeout := 30
    maxSizeStr := "1M"
    output := none }

/-- Network for argsDeflateBatch. -/
def netDeflateBatch : String → NetOutcome := fun url =>
  if url = "http://bad.example/" then .success badDeflateResp
  else .success plainResp

/-- Batch fixture: console mode, three URLs, the middle one times out. -/
def argsThree : Args :=
  { urls := ["http://a.example/", "http://t.example/", "http://b.example/"]
    show_headers := false
    raw := false
    jsonOut := false
    timeout := 30
    maxSizeStr := "1M"
    output := none }

/-- Network for argsThree: two successes around one timeout. -/
def netThree : String → NetOutcome := fun url =>
  if url = "http://t.example/" then .raiseURLError "The read operation timed out"
  else if url = "http://a.example/" then .success plainResp
  else .success plainRespB

/-- Python truthiness test for the exit computation: whether main ended with
an uncaught exception (used as a decidable hypothesis on fixtures). -/
def isUncaughtExit : BatchExit → Bool
  | .uncaught _ => true
  | _ => false

/-! ## Helper lemmas -/

theorem readChunks_exceeds (maxSize : Int) :
    ∀ (chunks : List (List Nat)) (total : Nat) (buf : List Nat),
      maxSize < (total : Int) + (streamedBytes chunks : Int) →
      (total : Int) ≤ maxSize →
      readChunks maxSize chunks total buf =
        .error (.runtimeError (sizeExceededMsg maxSize)) := by
  intro chunks
  induction chunks with
  | nil =>
      intro total buf h hle
      exfalso
      simp [streamedBytes] at h
      omega
  | cons c rest ih =>
      intro total buf h hle
      by_cases hc : c.length = 0
      · exfalso
        simp [streamedBytes, hc] at h
        omega
      · by_cases hover : maxSize < ((total + c.length : Nat) : Int)
        · simp only [readChunks, if_neg hc, if_pos hover]
        · simp only [readChunks, if_neg hc, if_neg hover]
          refine ih (total + c.length) (buf ++ c) ?_ ?_
          · simp only [streamedBytes, if_neg hc] at h
            push_cast at h ⊢
            omega
          · push_cast at hover ⊢
            omega

theorem readChunks_ok_le (maxSize : Int) :
    ∀ (chunks : List (List Nat)) (total : Nat) (buf out : List Nat),
      buf.length = total → (total : Int) ≤ maxSize →
      readChunks maxSize chunks total buf = .ok out →
      (out.length : Int) ≤ maxSize := by
  intro chunks
  induction chunks with
  | nil =>
      intro total buf out hb hle h
      simp only [readChunks, Except.ok.injEq] at h
      subst h
      rw [hb]
      exact hle
  | cons c rest ih =>
      intro total buf out hb hle h
      by_cases hc : c.length = 0
      · simp only [readChunks, if_pos hc, Except.ok.injEq] at h
        subst h
        rw [hb]
        exact hle
      · by_cases hover : maxSize < ((total + c.length : Nat) : Int)
        · simp only [readChunks, if_neg hc, if_pos hover] at h
          exact Except.noConfusion h
        · simp only [readChunks, if_neg hc, if_neg hover] at h
          exact ih (total + c.length) (buf ++ c) out
            (by simp [hb]) (by push_cast at hover ⊢; omega) h

theorem readChunksPeak_le (maxSize : Int) :
    ∀ (chunks : List (List Nat)) (total : Nat),
      (total : Int) ≤ maxSize →
      (readChunksPeak maxSize chunks total : Int) ≤ maxSize := by
  intro chunks
  induction chunks with
  | nil => intro total hle; simpa [readChunksPeak] using hle
  | cons c rest ih =>
      intro total hle
      by_cases hc : c.length = 0
      · simpa [readChunksPeak, hc] using hle
      · by_cases hover : maxSize < ((total + c.length : Nat) : Int)
        · simp only [readChunksPeak, if_neg hc, if_pos hover]
          exact hle
        · simp only [readChunksPeak, if_neg hc, if_neg hover]
          exact ih (total + c.length) (by push_cast at hover ⊢; omega)

theorem processUrl_none_shape (lib : ZlibLib) (codec : CodecLib) (rlib : RenderLib)
    (args : Args) (maxSize : Int) (net : String → NetOutcome) (st : LoopState)
    (url : String) (st' : LoopState) (hout : args.output = none)
    (h : processUrl lib codec rlib args maxSize net st url = .ok st') :
    ∃ f, st' = { st with results := st.results ++ [f] } := by
  unfold processUrl at h
  rw [hout] at h
  split at h
  · exact Except.noConfusion h
  · dsimp only at h
    split at h
    · exact Except.noConfusion h
    · exact ⟨_, ((Except.ok.injEq _ _).mp h).symm⟩

theorem processUrl_some_shape (lib : ZlibLib) (codec : CodecLib) (rlib : RenderLib)
    (args : Args) (maxSize : Int) (net : String → NetOutcome) (st : LoopState)
    (url : String) (st' : LoopState) (out : String) (hout : args.output = some out)
    (h : processUrl lib codec rlib args maxSize net st url = .ok st') :
    st'.results = st.results := by
  unfold processUrl at h
  rw [hout] at h
  split at h
  · exact Except.noConfusion h
  · dsimp only at h
    rw [← (Except.ok.injEq _ _).mp h]

theorem batchLoop_none_counts (lib : ZlibLib) (codec : CodecLib) (rlib : RenderLib)
    (args : Args) (maxSize : Int) (net : String → NetOutcome)
    (hout : args.output = none) :
    ∀ (urls : List String) (st st' : LoopState),
      batchLoop lib codec rlib args maxSize net urls st = (st', none) →
      st'.results.length + st'.errors.length =
        st.results.length + st.errors.length + urls.length := by
  intro urls
  induction urls with
  | nil =>
      intro st st' h
      simp only [batchLoop, Prod.mk.injEq] at h
      rw [← h.1]
      simp
  | cons url rest ih =>
      intro st st' h
      simp only [batchLoop] at h
      split at h
      · rename_i st1 hp
        obtain ⟨f, hf⟩ := processUrl_none_shape lib codec rlib args maxSize net
          st url st1 hout hp
        have hc := ih st1 st' h
        subst hf
        simp only [List.length_append, List.length_cons, List.length_nil] at hc ⊢
        omega
      · rename_i e hp
        split at h
        · have hc := ih _ st' h
          simp only [List.length_append, List.length_cons, List.length_nil] at hc ⊢
          omega
        · exact absurd (congrArg Prod.snd h) (by simp)

theorem batchLoop_some_results (lib : ZlibLib) (codec : CodecLib) (rlib : RenderLib)
    (args : Args) (maxSize : Int) (net : String → NetOutcome) (out : String)
    (hout : args.output = some out) :
    ∀ (urls : List String) (st st' : LoopState) (exc : Option PyExc),
      batchLoop lib codec rlib args maxSize net urls st = (st', exc) →
      st'.results = st.results := by
  intro urls
  induction urls with
  | nil =>
      intro st st' exc h
      simp only [batchLoop, Prod.mk.injEq] at h
      rw [← h.1]
  | cons url rest ih =>
      intro st st' exc h
      simp only [batchLoop] at h
      split at h
      · rename_i st1 hp
        rw [ih st1 st' exc h]
        exact processUrl_some_shape lib codec rlib args maxSize net st url st1 out
          hout hp
      · rename_i e hp
        split at h
        · have hres := ih _ st' exc h
          exact hres
        · rw [← ((Prod.mk.injEq _ _ _ _).mp h).1]

/-! ## Claim theorems -/

/-- C3: for every response whose streamed cumulative byte count exceeds
maxSize, fetch_url aborts with the SizeExceeded RuntimeError, and no
FetchResult is returned to the caller; the buffer's high-water mark stays
within the cap, so the over-budget chunk is never appended. -/
theorem c3_size_cap_abort (lib : ZlibLib) (url : String) (timeout : Nat)
    (maxSize : Int) (resp : NetResponse)
    (hscheme : urlScheme url = "http" ∨ urlScheme url = "https")
    (h0 : 0 ≤ maxSize)
    (hover : maxSize < (streamedBytes resp.chunks : Int)) :
    fetch_url lib url timeout maxSize (.success resp) =
      .error (.runtimeError (sizeExceededMsg maxSize)) ∧
    (readChunksPeak maxSize resp.chunks 0 : Int) ≤ maxSize := by
  have hrc : readChunks maxSize resp.chunks 0 [] =
      .error (.runtimeError (sizeExceededMsg maxSize)) :=
    readChunks_exceeds maxSize resp.chunks 0 [] (by push_cast; omega) h0
  constructor
  · have hs : (decide (urlScheme url ≠ "http") &&
        decide (urlScheme url ≠ "https")) = false := by
      rcases hscheme with h | h <;> simp [h]
    unfold fetch_url
    rw [hs]
    dsimp only
    unfold fetchBody
    rw [hrc]
    rfl
  · exact readChunksPeak_le maxSize resp.chunks 0 h0

/-- C3 witness: a 5-byte stream against a 4-byte cap aborts with the
formatted RuntimeError and the buffer never exceeds 4 bytes. -/
theorem c3_size_cap_abort_witness :
    fetch_url idZlib "http://w.example/" 30 4 (.success overflowResp) =
      .error (.runtimeError "Response size exceeds maximum (4 bytes)") ∧
    (readChunksPeak 4 overflowResp.chunks 0 : Int) ≤ 4 := by
  have h := c3_size_cap_abort idZlib "http://w.example/" 30 4 overflowResp
    (by decide) (by decide) (by decide)
  exact ⟨h.1.trans (by decide), h.2⟩

/-- C2 (amended): the cap bounds the bytes as received on the wire. Whenever
the Content-Encoding is absent or unrecognized — i.e. no decompression
rewrites the buffer — the content stored in the FetchResult is within
maxSize. (The original claim, that the stored content is within the cap
after transport decompression, is refuted by c2_decompressed_counterexample:
the size check runs on the compressed stream only.) -/
theorem c2_wire_cap (lib : ZlibLib) (url : String) (timeout : Nat)
    (maxSize : Int) (resp : NetResponse) (r : FetchResult)
    (h0 : 0 ≤ maxSize)
    (hgz : pyLower ((headerGet resp.headers "Content-Encoding").getD "") ≠ "gzip")
    (hdf : pyLower ((headerGet resp.headers "Content-Encoding").getD "") ≠ "deflate")
    (hok : fetch_url lib url timeout maxSize (.success resp) = .ok r) :
    (r.content.length : Int) ≤ maxSize := by
  unfold fetch_url at hok
  split at hok
  · exact Except.noConfusion hok
  · dsimp only at hok
    split at hok
    · rename_i r' heq
      unfold fetchBody at heq
      split at heq
      · exact Except.noConfusion heq
      · rename_i wireBytes hrc
        have hwire : (wireBytes.length : Int) ≤ maxSize :=
          readChunks_ok_le maxSize resp.chunks 0 [] wireBytes rfl h0 hrc
        dsimp only at heq
        have hdec : (if pyLower ((headerGet resp.headers "Content-Encoding").getD "") ≠ "" then
            decompress_content lib wireBytes
              (pyLower ((headerGet resp.headers "Content-Encoding").getD ""))
          else .ok wireBytes) = .ok wireBytes := by
          by_cases henc : pyLower ((headerGet resp.headers "Content-Encoding").getD "") = ""
          · rw [if_neg (by simp [henc])]
          · rw [if_pos (by simp [henc])]
            unfold decompress_content
            rw [if_neg hgz, if_neg hdf]
        rw [hdec] at heq
        cases heq
        injection hok with h2
        rw [← h2]
        exact hwire
    · exact Except.noConfusion hok

/-- C2 witness: a 2-byte uncompressed response under a 10-byte cap yields a
FetchResult whose content is within the cap. -/
theorem c2_wire_cap_witness : ((plainFetched.content.length : Int) ≤ 10) :=
  c2_wire_cap idZlib "http://a.example/" 30 10 plainResp plainFetched
    (by decide) (by decide) (by decide) (by decide)

/-- C2 counterexample: the claim as stated is false. A gzip response whose 4
wire bytes fit the 4-byte cap exactly is decompressed after the size check,
and the FetchResult stores 12 bytes — three times the cap. -/
theorem c2_decompressed_counterexample :
    (fetch_url expandZlib "http://e.example/x" 30 4 (.success gzipSmallResp)).map
        (fun fr => (fr.content.length : Int)) = .ok 12 ∧ ¬((12 : Int) ≤ 4) := by
  decide

/-- C6: parse_size maps "1M" to 1048576, "500K" to 512000, "10MB" to
10485760 and "123" to 123, fails with the InvalidSizeFormat ValueError on
"bogus", and a string ending in "MB" matches no shorter suffix of the
multiplier table ("K", "KB" or "M"), so the scan can never strip "M" first. -/
theorem c6_parse_size_suffixes :
    parse_size "1M" = .ok 1048576 ∧
    parse_size "500K" = .ok 512000 ∧
    parse_size "10MB" = .ok 10485760 ∧
    parse_size "123" = .ok 123 ∧
    parse_size "bogus" = .error (.valueError "Invalid size format: BOGUS") ∧
    ∀ t : List Char,
      pyEndsWith ⟨t ++ ['M', 'B']⟩ "MB" = true ∧
      pyEndsWith ⟨t ++ ['M', 'B']⟩ "K" = false ∧
      pyEndsWith ⟨t ++ ['M', 'B']⟩ "KB" = false ∧
      pyEndsWith ⟨t ++ ['M', 'B']⟩ "M" = false := by
  refine ⟨by decide, by decide, by decide, by decide, by decide, ?_⟩
  intro t
  refine ⟨?_, ?_, ?_, ?_⟩ <;>
    simp [pyEndsWith, List.isSuffixOf, List.reverse_append, List.isPrefixOf]

/-- C7: decompress_content inverts each transport compression — the gzip
branch applies the gzip inflater; the deflate branch returns the
zlib-wrapped inflation when it succeeds and retries as raw deflate exactly
when the first attempt raises zlib.error; every other encoding (absent
included) passes the bytes through unchanged with no error. The hypotheses
are the library facts that inflating a compressed payload returns the
original plaintext. -/
theorem c7_decompress_roundtrip (lib : ZlibLib) (b gz wrapped rawd : List Nat) :
    (lib.gzipDecompress gz = .ok b → decompress_content lib gz "gzip" = .ok b) ∧
    (lib.zlibDecompress wrapped = .ok b →
      decompress_content lib wrapped "deflate" = .ok b) ∧
    (∀ msg, lib.zlibDecompress rawd = .error (.zlibError msg) →
      lib.zlibDecompressRaw rawd = .ok b →
      decompress_content lib rawd "deflate" = .ok b) ∧
    (∀ enc : String, enc ≠ "gzip" → enc ≠ "deflate" →
      decompress_content lib b enc = .ok b) := by
  refine ⟨?_, ?_, ?_, ?_⟩
  · intro h
    simpa [decompress_content] using h
  · intro h
    simp [decompress_content, h]
  · intro msg h1 h2
    simp [decompress_content, h1, isZlibErrorClass, h2]
  · intro enc h1 h2
    simp [decompress_content, h1, h2]

/-- C7 witness: concrete inflaters — an identity pair for gzip, wrapped
deflate and pass-through, and a pair whose zlib-wrapped attempt raises
zlib.error while the raw attempt recovers the plaintext. -/
theorem c7_decompress_roundtrip_witness :
    decompress_content idZlib [1, 2, 3] "gzip" = .ok [1, 2, 3] ∧
    decompress_content idZlib [7, 8] "deflate" = .ok [7, 8] ∧
    decompress_content rawDeflateZlib [9, 9] "deflate" = .ok [10, 20] ∧
    decompress_content idZlib [5] "br" = .ok [5] := by
  refine ⟨?_, ?_, ?_, ?_⟩
  · exact (c7_decompress_roundtrip idZlib [1, 2, 3] [1, 2, 3] [] []).1 rfl
  · exact (c7_decompress_roundtrip idZlib [7, 8] [] [7, 8] []).2.1 rfl
  · exact (c7_decompress_roundtrip rawDeflateZlib [10, 20] [] [] [9, 9]).2.2.1
      "Error -3 while decompressing data: incorrect header check" rfl rfl
  · exact (c7_decompress_roundtrip idZlib [5] [] [] []).2.2.2 "br"
      (by decide) (by decide)

/-- C10: parse_size accepts a fractional numeric part before a recognized
suffix — "0.5K" is 512 and "1.5M" is 1572864, the product truncated toward
zero — while "1.5" without a suffix still fails with InvalidSizeFormat. -/
theorem c10_fractional_sizes :
    parse_size "0.5K" = .ok 512 ∧
    parse_size "1.5M" = .ok 1572864 ∧
    parse_size "1.5" = .error (.valueError "Invalid size format: 1.5") := by
  decide

/-- C1 (amended): the exit status is derived from the console-rendered
results, not from fetch successes. When the loop finishes without an
uncaught exception: with no --output every URL contributes exactly one
rendered result or one error line, and the status is 0 with no errors, 1
with errors and no rendered results, 2 with both; with --output no result is
ever rendered to the console, so those same rules make any failure exit 1
even when other URLs were fetched and saved successfully. (The original
claim — exit 2 for partial failure also when successes went to files — is
refuted by c1_output_exit_counterexample.) -/
theorem c1_exit_status (lib : ZlibLib) (codec : CodecLib) (rlib : RenderLib)
    (args : Args) (net : String → NetOutcome) (maxSize : Int)
    (hms : parse_size args.maxSizeStr = .ok maxSize)
    (hdone : isUncaughtExit (runMain lib codec rlib args net).exit = false) :
    (args.output = none →
      (runMain lib codec rlib args net).results.length +
        (runMain lib codec rlib args net).errors.length = args.urls.length) ∧
    (∀ out, args.output = some out → (runMain lib codec rlib args net).results = []) ∧
    (runMain lib codec rlib args net).exit =
      .exited (if (runMain lib codec rlib args net).errors = [] then 0
        else if (runMain lib codec rlib args net).results = [] then 1 else 2) := by
  cases hbl : batchLoop lib codec rlib args maxSize net args.urls ⟨[], [], []⟩ with
  | mk st exc =>
    cases exc with
    | some e =>
        exfalso
        simp [runMain, hms, hbl, isUncaughtExit] at hdone
    | none =>
        have hrm : runMain lib codec rlib args net =
            { results := st.results, errors := st.errors, saved := st.saved,
              exit := .exited
                (if st.errors ≠ [] && st.results.isEmpty then 1
                 else if st.errors ≠ [] then 2 else 0) } := by
          simp [runMain, hms, hbl]
        rw [hrm]
        refine ⟨?_, ?_, ?_⟩
        · intro hout
          have hc := batchLoop_none_counts lib codec rlib args maxSize net hout
            args.urls ⟨[], [], []⟩ st hbl
          simpa using hc
        · intro out hout
          have hr := batchLoop_some_results lib codec rlib args maxSize net out hout
            args.urls ⟨[], [], []⟩ st none hbl
          simpa using hr
        · simp only []
          congr 1
          by_cases he : st.errors = [] <;> by_cases hr : st.results = [] <;>
            simp [he, hr, List.isEmpty_iff]

/-- C1 witness: a console batch of three URLs, two succeeding and one timing
out, renders two results, records one error line and exits 2. -/
theorem c1_exit_status_witness :
    (runMain idZlib asciiCodec plainRender argsThree netThree).results.length +
        (runMain idZlib asciiCodec plainRender argsThree netThree).errors.length = 3 ∧
    (runMain idZlib asciiCodec plainRender argsThree netThree).exit = .exited 2 := by
  have h := c1_exit_status idZlib asciiCodec plainRender argsThree netThree
    1048576 (by decide) (by decide)
  exact ⟨h.1 rfl, h.2.2.trans (by decide)⟩

/-- C1 counterexample: the claim as stated is false for --output batches. A
batch of two URLs saved to a file destination, one succeeding (and written
to disk) and one failing, exits with status 1, not 2. -/
theorem c1_output_exit_counterexample :
    runMain idZlib asciiCodec plainRender argsOutputPartial netOneRefused =
      { results := [],
        errors := ["Error fetching http://c.example/: Network error: http://c.example/: connection refused"],
        saved := [("page_0.html", [72, 105])],
        exit := .exited 1 } := by
  decide

/-- C4: the code contradicts its own intent. With --output page.html and two
URLs that both succeed, the disambiguation index is len(results), which file
saving never increments, so both downloads are written to "page_0.html": the
second write overwrites the first instead of producing two distinct files. -/
theorem c4_output_index_collision :
    runMain idZlib asciiCodec plainRender argsSameOutput netBothOk =
      { results := [], errors := [],
        saved := [("page_0.html", [65]), ("page_0.html", [66])],
        exit := .exited 0 } := by
  decide

/-- C5: the code contradicts the claim (and fetch_url's documented raises).
When the first URL's deflate body is invalid as both zlib-wrapped and raw
deflate, zlib.error propagates uncaught — fetch_url's HTTPError, URLError
and OSError handlers miss it, as does main's (ValueError, RuntimeError)
clause — so no "Error fetching ..." line is recorded and the second URL is
never processed. -/
theorem c5_zlib_error_uncaught :
    runMain badDeflateZlib asciiCodec plainRender argsDeflateBatch netDeflateBatch =
      { results := [], errors := [], saved := [],
        exit := .uncaught
          (.zlibError "Error -3 while decompressing data: invalid block type") } := by
  decide

/-- C8 (amended): the decode chain is total for every charset whose primary
decode failure is a UnicodeDecodeError or a LookupError — this covers
invalid charset names and ordinary decode errors — because UTF-8-replace and
the latin-1-replace tail cannot fail. (The original claim, total for every
charset, is refuted by c8_undefined_counterexample: the registered
"undefined" codec raises bare UnicodeError, which the chain does not catch.) -/
theorem c8_decode_chain_total (codec : CodecLib) (content : List Nat)
    (charset : String)
    (h : ∀ e, codec.decode charset content = .error e →
      isUnicodeDecodeErrorClass e = true ∨ isLookupErrorClass e = true) :
    ∃ t, decodeText codec content charset = .ok t := by
  unfold decodeText
  cases hd : codec.decode charset content with
  | ok t => exact ⟨t, rfl⟩
  | error e =>
      have hcl : (isUnicodeDecodeErrorClass e || isLookupErrorClass e) = true := by
        rcases h e hd with h1 | h1 <;> simp [h1]
      simp only [hcl, if_true]
      cases hu : codec.decodeUtf8Replace content with
      | ok t => exact ⟨t, rfl⟩
      | error e2 => exact ⟨latin1Decode content, rfl⟩

/-- C8 witness: an unknown charset name (LookupError on the primary
attempt) still decodes successfully through the fallback chain. -/
theorem c8_decode_chain_total_witness :
    ∃ t, decodeText cpythonCodec [255] "bogus-charset" = .ok t := by
  apply c8_decode_chain_total cpythonCodec [255] "bogus-charset"
  intro e he
  have he' : (Except.error (PyExc.lookupError "unknown encoding: bogus-charset") :
      Except PyExc String) = .error e := he
  injection he' with h
  right
  rw [← h]
  rfl

/-- C8 counterexample: the claim as stated is false. With declared charset
"undefined" (a registered CPython codec whose decode raises bare
UnicodeError), the chain propagates the error, and format_output surfaces it
to its caller instead of rendering. -/
theorem c8_undefined_counterexample :
    decodeText cpythonCodec [104, 105] "undefined" =
      .error (.unicodeError "undefined encoding") ∧
    format_output cpythonCodec plainRender undefinedCharsetResult false false false =
      .error (.unicodeError "undefined encoding") := by
  decide

/-- C9: a flat text-mode render longer than the fixed 50 KiB cap is cut to
the cap's 51200 characters and carries the trailing marker naming that
count, while JSON mode returns the serializer's output verbatim — the
truncation step is unreachable there, so structured output is never
truncated whatever its size. -/
theorem c9_truncation (codec : CodecLib) (rlib : RenderLib) (r : FetchResult)
    (sh raw : Bool) (text : String)
    (htext : isTextType r.content_type = true)
    (hdec : decodeText codec r.content r.charset = .ok text) :
    ((flatText rlib r sh raw text).length > OUTPUT_TRUNCATE_SIZE →
      format_output codec rlib r sh raw false =
        .ok ((⟨(flatText rlib r sh raw text).data.take OUTPUT_TRUNCATE_SIZE⟩ : String) ++
          "\n\n... (truncated, showing first 51200 bytes)")) ∧
    format_output codec rlib r sh raw true =
      .ok (rlib.dumpOutput (jsonOutputData rlib r sh raw text)) := by
  constructor
  · intro hlen
    unfold format_output
    rw [htext]
    dsimp only [Bool.not_true]
    rw [hdec]
    dsimp only
    rw [if_pos hlen]
    rfl
  · unfold format_output
    rw [htext]
    dsimp only [Bool.not_true]
    rw [hdec]
    rfl

/-- C9 witness: a 60000-character body. Text mode truncates it to 51200
characters plus the marker; JSON mode returns the 60000-character serializer
payload untouched. -/
theorem c9_truncation_witness :
    format_output bigCodec plainRender bigPlainResult false false false =
      .ok ((⟨(flatText plainRender bigPlainResult false false bigText).data.take
          OUTPUT_TRUNCATE_SIZE⟩ : String) ++
        "\n\n... (truncated, showing first 51200 bytes)") ∧
    format_output bigCodec bigDumpRender bigPlainResult false false true = .ok bigText ∧
    bigText.length = 60000 := by
  have hlen : (flatText plainRender bigPlainResult false false bigText).length >
      OUTPUT_TRUNCATE_SIZE := by
    have h1 : flatText plainRender bigPlainResult false false bigText =
        "URL: http://big.example/\nStatus: 200\nContent-Type: text/plain\nSize: 1 bytes\n\n" ++
          bigText := rfl
    have h2 : bigText.length = 60000 := by
      have h3 : bigText = String.replicate 60000 'a' := rfl
      rw [h3, String.length_replicate]
    rw [h1, String.length_append, h2]
    decide
  refine ⟨?_, ?_, ?_⟩
  · exact (c9_truncation bigCodec plainRender bigPlainResult false false bigText
      (by decide) rfl).1 hlen
  · exact (c9_truncation bigCodec bigDumpRender bigPlainResult false false bigText
      (by decide) rfl).2
  · have h3 : bigText = String.replicate 60000 'a' := rfl
    rw [h3, String.length_replicate]

end WebFetch
